import Mathlib

/-!
Verification of the OpenAssetIO batch-dispatch and error-translation layer.

The definitions below are a shallow embedding of the C++ sources of the
`hostApi` dispatch layer: `hostApi/Manager.cpp`, `hostApi/ManagerConveniences.cpp`,
`errors/exceptions.cpp`, `errors/exceptionMessages.cpp` (the copy appended to
`tests/hostApi/PagerTest.cpp`), and the `EntityReferencePager` wrapper.
Plugin (manager-interface) behaviour is modelled as the ordered list of
success/error callback invocations the plugin performs during one batch call,
and a callback that throws is modelled by an `Except.error` result that aborts
the remaining invocations, matching the synchronous single-threaded contract.
-/

/-- The closed per-element error code enumeration of `BatchElementError`
(`errors/BatchElementError.hpp`; the header is not among the sources, the
enumerator list is that of the spec's data model and of the switch in
`Manager.cpp:throwFromBatchElementError`). -/
inductive ErrorCode where
  | kUnknown
  | kInvalidEntityReference
  | kMalformedEntityReference
  | kEntityAccessError
  | kEntityResolutionError
  | kInvalidTraitsData
  | kInvalidPreflightHint
  | kInvalidTraitSet
  deriving DecidableEq

/-- `errors::BatchElementError`: a tagged error value describing one failed
batch element. -/
structure BatchElementError where
  code : ErrorCode
  message : String
  deriving DecidableEq

/-- `EntityReference`: opaque validated string wrapper. -/
structure EntityReference where
  str : String
  deriving DecidableEq

/-- `EntityReference::toString`. -/
def EntityReference.toString (ref : EntityReference) : String :=
  ref.str

/-- `trait::TraitSet`: a set of trait identifier strings. Only its identity
matters to the dispatch layer, so it is carried as a plain list. -/
abbrev TraitSet := List String

/-- Modelled from the spec: `TraitsData`, a mapping from trait identifier to a
property bag of key/value properties. Its storage class is explicitly outside
the spec's scope and its source file is not under the given sources; the
dispatch layer treats values as opaque, so properties are carried as plain
string pairs. -/
structure TraitsData where
  properties : List (String × List (String × String))
  deriving DecidableEq

/-- Modelled from the spec: the shared access-intent enumeration
(`internal::access::Access`); every per-operation access enum
(`ResolveAccess`, `PublishingAccess`, ...) shares these values. The name table
matches `kAccessNames` as it appears in the `Context` declaration appended to
`Manager.cpp`. -/
inductive Access where
  | kRead
  | kWrite
  | kCreateRelated
  | kUnknown
  deriving DecidableEq

/-- The `kAccessNames` lookup table. -/
def accessName : Access → String
  | .kRead => "read"
  | .kWrite => "write"
  | .kCreateRelated => "createRelated"
  | .kUnknown => "unknown"

/-- `errors::InputValidationException`: carries only its message. -/
structure InputValidationException where
  message : String
  deriving DecidableEq

/-- Tag identifying the concrete C++ exception class of a thrown batch-element
exception (`errors/exceptions.hpp` hierarchy). `base` is the
`errors::BatchElementException` base class itself, thrown directly by the
convenience layer in `ManagerConveniences.cpp`. -/
inductive BatchElementExceptionKind where
  | base
  | unknown
  | invalidEntityReference
  | malformedEntityReference
  | entityAccessError
  | entityResolutionError
  | invalidTraitsData
  | invalidPreflightHint
  | invalidTraitSet
  deriving DecidableEq

/-- A thrown batch-element exception of the class-hierarchy flavour used by
`Manager.cpp`: the concrete class tag, the batch index, the originating
`BatchElementError`, the displayed (`what()`) message, and the optional
contextual payload members of the concrete classes. -/
structure ThrownBatchElementException where
  kind : BatchElementExceptionKind
  index : Nat
  error : BatchElementError
  message : String
  entityReference : Option EntityReference := none
  traitsData : Option TraitsData := none
  traitSet : Option TraitSet := none
  deriving DecidableEq

/-- `constructErrorMessage` from `errors/exceptions.cpp`: the message is
`"{msg} [{ref}]"` when an entity reference is available, and the plain
`BatchElementError` message otherwise. -/
def constructErrorMessage (batchElementErrorMessage : String)
    (maybeEntityReference : Option EntityReference) : String :=
  match maybeEntityReference with
  | some ref => batchElementErrorMessage ++ " [" ++ ref.toString ++ "]"
  | none => batchElementErrorMessage

/-- `BatchElementExceptionData` from `Manager.cpp`: all the contextual data a
convenience wrapper could collect before invoking the plugin; all optional. -/
structure BatchElementExceptionData where
  entityRef : Option EntityReference := none
  traitsData : Option TraitsData := none
  traitSet : Option TraitSet := none
  deriving DecidableEq

/-- `throwFromBatchElementError` from `Manager.cpp` (lines 44-80): switches on
the error's code and throws the equivalent concrete exception, attaching
whatever contextual data the calling wrapper collected. The thrown exception
is returned as a value; the post-switch defensive fallback of the C++ code is
unreachable for values of the closed enumeration and hence has no
representation over the `ErrorCode` inductive. -/
def throwFromBatchElementError (index : Nat) (error : BatchElementError)
    (exceptionData : BatchElementExceptionData := {}) : ThrownBatchElementException :=
  match error.code with
  | .kUnknown =>
      { kind := .unknown, index, error, message := error.message }
  | .kInvalidEntityReference =>
      { kind := .invalidEntityReference, index, error,
        message := constructErrorMessage error.message exceptionData.entityRef,
        entityReference := exceptionData.entityRef }
  | .kMalformedEntityReference =>
      { kind := .malformedEntityReference, index, error,
        message := constructErrorMessage error.message exceptionData.entityRef,
        entityReference := exceptionData.entityRef }
  | .kEntityAccessError =>
      { kind := .entityAccessError, index, error,
        message := constructErrorMessage error.message exceptionData.entityRef,
        entityReference := exceptionData.entityRef }
  | .kEntityResolutionError =>
      { kind := .entityResolutionError, index, error,
        message := constructErrorMessage error.message exceptionData.entityRef,
        entityReference := exceptionData.entityRef }
  | .kInvalidTraitsData =>
      { kind := .invalidTraitsData, index, error,
        message := constructErrorMessage error.message exceptionData.entityRef,
        entityReference := exceptionData.entityRef,
        traitsData := exceptionData.traitsData }
  | .kInvalidPreflightHint =>
      { kind := .invalidPreflightHint, index, error,
        message := constructErrorMessage error.message exceptionData.entityRef,
        entityReference := exceptionData.entityRef,
        traitsData := exceptionData.traitsData }
  | .kInvalidTraitSet =>
      { kind := .invalidTraitSet, index, error,
        message := constructErrorMessage error.message exceptionData.entityRef,
        entityReference := exceptionData.entityRef,
        traitSet := exceptionData.traitSet }

/-- `errors::errorCodeName` exactly as in the `exceptionMessages.cpp` copy
appended to `PagerTest.cpp` (lines 266-285): the switch there has no case for
`kInvalidTraitsData`, so that enumerator reaches the fall-through
`return "Unknown ErrorCode";` statement. -/
def errorCodeName : ErrorCode → String
  | .kUnknown => "unknown"
  | .kInvalidEntityReference => "invalidEntityReference"
  | .kMalformedEntityReference => "malformedEntityReference"
  | .kEntityAccessError => "entityAccessError"
  | .kEntityResolutionError => "entityResolutionError"
  | .kInvalidPreflightHint => "invalidPreflightHint"
  | .kInvalidTraitSet => "invalidTraitSet"
  | .kInvalidTraitsData => "Unknown ErrorCode"

/-- `errors::createBatchElementExceptionMessage` (`PagerTest.cpp` lines
287-310): concatenation of the error-code name, the error message when
non-empty, the index segment, and the optional access and entity segments. -/
def createBatchElementExceptionMessage (err : BatchElementError) (index : Nat)
    (entityReference : Option EntityReference) (access : Option Access) : String :=
  (errorCodeName err.code ++ ":")
    ++ (if err.message.isEmpty then "" else " " ++ err.message)
    ++ (" [index=" ++ toString index ++ "]")
    ++ (match access with
        | some acc => " [access=" ++ accessName acc ++ "]"
        | none => "")
    ++ (match entityReference with
        | some ref => " [entity=" ++ ref.toString ++ "]"
        | none => "")

/-- The `errors::BatchElementException` of the convenience layer
(`ManagerConveniences.cpp`): thrown as the base class, constructed from the
index, the originating error and a pre-built message. -/
structure BatchElementException where
  index : Nat
  error : BatchElementError
  message : String
  deriving DecidableEq

/-- `Manager::isEntityReferenceString` (`Manager.cpp` lines 181-187):
when no match string was advertised by the manager's info dictionary the query
is forwarded to the manager interface (modelled as the function
`mgrIsRef`); otherwise the C++ code tests `someString.rfind(p, 0) != npos`,
i.e. whether the advertised string starts the candidate. `advertised` models
the stored optional member assigned during `initialize`. -/
def Manager.isEntityReferenceString (mgrIsRef : String → Bool)
    (advertised : Option String) (someString : String) : Bool :=
  match advertised with
  | none => mgrIsRef someString
  | some p => someString.startsWith p

/-- `kCreateEntityReferenceErrorMessage` (`Manager.cpp` line 189). -/
def kCreateEntityReferenceErrorMessage : String :=
  "Invalid entity reference: "

/-- `Manager::createEntityReference` (`Manager.cpp` lines 191-197). -/
def Manager.createEntityReference (mgrIsRef : String → Bool)
    (advertised : Option String) (entityReferenceString : String) :
    Except InputValidationException EntityReference :=
  if ¬ Manager.isEntityReferenceString mgrIsRef advertised entityReferenceString then
    .error { message := kCreateEntityReferenceErrorMessage ++ entityReferenceString }
  else
    .ok { str := entityReferenceString }

/-- `Manager::createEntityReferenceIfValid` (`Manager.cpp` lines 199-204). -/
def Manager.createEntityReferenceIfValid (mgrIsRef : String → Bool)
    (advertised : Option String) (entityReferenceString : String) :
    Option EntityReference :=
  if ¬ Manager.isEntityReferenceString mgrIsRef advertised entityReferenceString then
    none
  else
    some { str := entityReferenceString }

/-- The arguments the callback-form `Manager::preflight` forwards unchanged to
`managerInterface_->preflight` once input-shape validation has passed. -/
structure PreflightForward where
  entityReferences : List EntityReference
  traitsHints : List TraitsData
  publishingAccess : Access
  deriving DecidableEq

/-- Callback-form `Manager::preflight` input-shape validation and dispatch
(`Manager.cpp` lines 391-407): unequal list lengths raise
`InputValidationException` before the manager interface is invoked; equal
lengths are forwarded unchanged (the forwarded arguments are returned as a
record standing for the single manager-interface invocation). -/
def Manager.preflight (entityReferences : List EntityReference)
    (traitsHints : List TraitsData) (publishingAccess : Access) :
    Except InputValidationException PreflightForward :=
  if entityReferences.length ≠ traitsHints.length then
    .error { message :=
      "Parameter lists must be of the same length: "
        ++ toString entityReferences.length
        ++ " entity references vs. "
        ++ toString traitsHints.length
        ++ " traits hints." }
  else
    .ok { entityReferences, traitsHints, publishingAccess }

/-- The arguments the callback-form `Manager::register_` forwards unchanged to
`managerInterface_->register_` once input-shape validation has passed. -/
structure RegisterForward where
  entityReferences : List EntityReference
  entityTraitsDatas : List TraitsData
  publishingAccess : Access
  deriving DecidableEq

/-- Callback-form `Manager::register_` input-shape validation and dispatch
(`Manager.cpp` lines 487-503). -/
def Manager.register_ (entityReferences : List EntityReference)
    (entityTraitsDatas : List TraitsData) (publishingAccess : Access) :
    Except InputValidationException RegisterForward :=
  if entityReferences.length ≠ entityTraitsDatas.length then
    .error { message :=
      "Parameter lists must be of the same length: "
        ++ toString entityReferences.length
        ++ " entity references vs. "
        ++ toString entityTraitsDatas.length
        ++ " traits datas." }
  else
    .ok { entityReferences, entityTraitsDatas, publishingAccess }

/-- The arguments `Manager::getWithRelationshipPaged` forwards to
`managerInterface_->getWithRelationshipPaged` once the page-size check
passed. -/
structure GetWithRelationshipPagedForward where
  entityReferences : List EntityReference
  relationshipTraitsData : TraitsData
  resultTraitSet : TraitSet
  pageSize : Nat
  relationsAccess : Access
  deriving DecidableEq

/-- `Manager::getWithRelationshipPaged` (`Manager.cpp` lines 337-362): a zero
page size raises `InputValidationException` before the manager interface is
invoked; otherwise the call is forwarded (the pager-converting success
callback only re-wraps the success value and is not part of the validation
behaviour modelled here). -/
def Manager.getWithRelationshipPaged (entityReferences : List EntityReference)
    (relationshipTraitsData : TraitsData) (pageSize : Nat)
    (relationsAccess : Access) (resultTraitSet : TraitSet) :
    Except InputValidationException GetWithRelationshipPagedForward :=
  if pageSize = 0 then
    .error { message := "pageSize must be greater than zero." }
  else
    .ok { entityReferences, relationshipTraitsData, resultTraitSet, pageSize,
          relationsAccess }

/-- The arguments `Manager::getWithRelationshipsPaged` forwards to
`managerInterface_->getWithRelationshipsPaged` once the page-size check
passed. -/
structure GetWithRelationshipsPagedForward where
  entityReference : EntityReference
  relationshipTraitsDatas : List TraitsData
  resultTraitSet : TraitSet
  pageSize : Nat
  relationsAccess : Access
  deriving DecidableEq

/-- `Manager::getWithRelationshipsPaged` (`Manager.cpp` lines 364-389). -/
def Manager.getWithRelationshipsPaged (entityReference : EntityReference)
    (relationshipTraitsDatas : List TraitsData) (pageSize : Nat)
    (relationsAccess : Access) (resultTraitSet : TraitSet) :
    Except InputValidationException GetWithRelationshipsPagedForward :=
  if pageSize = 0 then
    .error { message := "pageSize must be greater than zero." }
  else
    .ok { entityReference, relationshipTraitsDatas, resultTraitSet, pageSize,
          relationsAccess }

/-- One callback invocation performed by the plugin during a batch call:
either the success callback with a value for an index, or the error callback
with a `BatchElementError` for an index. -/
inductive CallbackEvent (V : Type) where
  | success (index : Nat) (value : V)
  | failure (index : Nat) (error : BatchElementError)
  deriving DecidableEq

/-- Whether a callback invocation is a success invocation. -/
def CallbackEvent.isSuccess {V : Type} : CallbackEvent V → Bool
  | .success _ _ => true
  | .failure _ _ => false

/-- The synchronous plugin call: the plugin invokes the wrapper's callbacks in
the given order; a callback that throws (returns `Except.error`) propagates
out of the plugin call, so the remaining invocations never take place. -/
def runPlugin {σ V ε : Type} (step : σ → CallbackEvent V → Except ε σ) :
    σ → List (CallbackEvent V) → Except ε σ
  | s, [] => .ok s
  | s, ev :: rest =>
    match step s ev with
    | .ok s2 => runPlugin step s2 rest
    | .error e => .error e

/-- The callback pair of the plural exception-policy `Manager::resolve`
(`Manager.cpp` lines 262-283): the success callback writes the resolved data
into the pre-sized result at its index (a `TraitsDataPtr` slot, null by
default, hence `Option`); the error callback packs the per-index contextual
data and throws via `throwFromBatchElementError`. -/
def resolveExceptStep (entityReferences : List EntityReference)
    (traitSet : TraitSet) (resolveResult : List (Option TraitsData)) :
    CallbackEvent TraitsData →
      Except ThrownBatchElementException (List (Option TraitsData))
  | .success index data => .ok (resolveResult.set index (some data))
  | .failure index error =>
      .error (throwFromBatchElementError index error
        { entityRef := entityReferences[index]?,
          traitSet := some traitSet })

/-- Plural exception-policy `Manager::resolve` (`Manager.cpp` lines 262-283):
result pre-sized to the input length, then the plugin invokes the callbacks. -/
def Manager.resolveMultiException (entityReferences : List EntityReference)
    (traitSet : TraitSet) (events : List (CallbackEvent TraitsData)) :
    Except ThrownBatchElementException (List (Option TraitsData)) :=
  runPlugin (resolveExceptStep entityReferences traitSet)
    (List.replicate entityReferences.length none) events

/-- The callback pair of the plural variant-policy `Manager::resolve`
(`Manager.cpp` lines 286-302): both callbacks write into the pre-sized
discriminated-union result at their index and never throw. -/
def resolveVariantStep
    (resolveResult : List (Sum BatchElementError (Option TraitsData))) :
    CallbackEvent TraitsData → List (Sum BatchElementError (Option TraitsData))
  | .success index data => resolveResult.set index (Sum.inr (some data))
  | .failure index error => resolveResult.set index (Sum.inl error)

/-- The slot a freshly resized `std::vector<std::variant<BatchElementError,
TraitsDataPtr>>` holds: a value-initialised variant, i.e. a value-initialised
`BatchElementError` in the first alternative. Never observed when the plugin
honours its one-callback-per-index contract. -/
def defaultVariantSlot : Sum BatchElementError (Option TraitsData) :=
  Sum.inl { code := .kUnknown, message := "" }

/-- Plural variant-policy `Manager::resolve` (`Manager.cpp` lines 286-302):
a total function with no exception path. -/
def Manager.resolveMultiVariant (entityReferences : List EntityReference)
    (events : List (CallbackEvent TraitsData)) :
    List (Sum BatchElementError (Option TraitsData)) :=
  events.foldl resolveVariantStep
    (List.replicate entityReferences.length defaultVariantSlot)

/-- Singular exception-policy `Manager::resolve` (`Manager.cpp` lines
223-241): the success callback overwrites the single (initially null) result,
the error callback packs the entity reference and trait set and throws. -/
def Manager.resolveSingularException (entityReference : EntityReference)
    (traitSet : TraitSet) (events : List (CallbackEvent TraitsData)) :
    Except ThrownBatchElementException (Option TraitsData) :=
  runPlugin
    (fun _resolveResult ev =>
      match ev with
      | .success _index data => .ok (some data)
      | .failure index error =>
          .error (throwFromBatchElementError index error
            { entityRef := some entityReference, traitSet := some traitSet }))
    none events

/-- The callback pair of the plural exception-policy `Manager::resolve` of the
convenience layer (`ManagerConveniences.cpp` lines 152-173): the error
callback builds the canonical message via `createBatchElementExceptionMessage`
with the per-index entity reference and the access mode, and throws the
`errors::BatchElementException` base class. -/
def resolveExceptStepConv (entityReferences : List EntityReference)
    (resolveAccess : Access) (resolveResult : List (Option TraitsData)) :
    CallbackEvent TraitsData →
      Except BatchElementException (List (Option TraitsData))
  | .success index data => .ok (resolveResult.set index (some data))
  | .failure index error =>
      .error
        { index, error,
          message := createBatchElementExceptionMessage error index
            (entityReferences[index]?) (some resolveAccess) }

/-- Plural exception-policy `Manager::resolve` of the convenience layer
(`ManagerConveniences.cpp` lines 152-173). -/
def Manager.resolveMultiExceptionConv (entityReferences : List EntityReference)
    (resolveAccess : Access) (events : List (CallbackEvent TraitsData)) :
    Except BatchElementException (List (Option TraitsData)) :=
  runPlugin (resolveExceptStepConv entityReferences resolveAccess)
    (List.replicate entityReferences.length none) events

/-- Modelled from the spec: the manager-side
`managerApi::EntityReferencePagerInterface` (its three methods each take the
active host session and may advance backend state; the state type `σ` stands
for the backend cursor together with the session). The source file
implementing the host-side forwarders is not among the sources; only the
class declaration (`hostApi/EntityReferencePager.hpp`) and its tests are. -/
structure EntityReferencePagerInterface (σ : Type) where
  hasNextImpl : σ → Bool × σ
  getImpl : σ → List EntityReference × σ
  nextImpl : σ → σ

/-- Modelled from the spec: `EntityReferencePager::hasNext` forwards exactly
once to the backend interface method with the active host session. -/
def EntityReferencePager.hasNext {σ : Type}
    (pagerInterface : EntityReferencePagerInterface σ) (s : σ) : Bool × σ :=
  pagerInterface.hasNextImpl s

/-- Modelled from the spec: `EntityReferencePager::get` forwards exactly once
to the backend interface method, with no local buffering. -/
def EntityReferencePager.get {σ : Type}
    (pagerInterface : EntityReferencePagerInterface σ) (s : σ) :
    List EntityReference × σ :=
  pagerInterface.getImpl s

/-- Modelled from the spec: `EntityReferencePager::next` forwards exactly once
to the backend interface method. -/
def EntityReferencePager.next {σ : Type}
    (pagerInterface : EntityReferencePagerInterface σ) (s : σ) : σ :=
  pagerInterface.nextImpl s

/-- A host-side pager method call. -/
inductive PagerOp where
  | hasNextOp
  | getOp
  | nextOp
  deriving DecidableEq

/-- The value observed by the host for one pager method call. -/
inductive PagerObs where
  | boolObs (value : Bool)
  | pageObs (page : List EntityReference)
  | unitObs
  deriving DecidableEq

/-- Run a sequence of host-side pager calls through the
`EntityReferencePager` forwarders, returning the per-call observations paired
with the calls, and the final backend state. -/
def EntityReferencePager.run {σ : Type}
    (pagerInterface : EntityReferencePagerInterface σ) (s : σ) :
    List PagerOp → List (PagerOp × PagerObs) × σ
  | [] => ([], s)
  | op :: rest =>
    let (obs, s2) :=
      match op with
      | .hasNextOp =>
        let (value, s2) := EntityReferencePager.hasNext pagerInterface s
        (PagerObs.boolObs value, s2)
      | .getOp =>
        let (page, s2) := EntityReferencePager.get pagerInterface s
        (PagerObs.pageObs page, s2)
      | .nextOp => (PagerObs.unitObs, EntityReferencePager.next pagerInterface s)
    let (trace, s3) := EntityReferencePager.run pagerInterface s2 rest
    ((op, obs) :: trace, s3)

/-- Run the same sequence of calls directly against the backend interface
methods: the reference trace in which every call is serviced by exactly one
backend invocation of the corresponding method, in order, with no memoization
or caching in between. -/
def EntityReferencePagerInterface.run {σ : Type}
    (pagerInterface : EntityReferencePagerInterface σ) (s : σ) :
    List PagerOp → List (PagerOp × PagerObs) × σ
  | [] => ([], s)
  | op :: rest =>
    let (obs, s2) :=
      match op with
      | .hasNextOp =>
        let (value, s2) := pagerInterface.hasNextImpl s
        (PagerObs.boolObs value, s2)
      | .getOp =>
        let (page, s2) := pagerInterface.getImpl s
        (PagerObs.pageObs page, s2)
      | .nextOp => (PagerObs.unitObs, pagerInterface.nextImpl s)
    let (trace, s3) := EntityReferencePagerInterface.run pagerInterface s2 rest
    ((op, obs) :: trace, s3)

/-- Helper: a run in which every invocation is a success never throws and is
the plain left fold of the success action. -/
theorem runPlugin_ok_of_allSuccess {σ V ε : Type}
    (step : σ → CallbackEvent V → Except ε σ) (g : σ → CallbackEvent V → σ)
    (hstep : ∀ s i v,
      step s (CallbackEvent.success i v) = .ok (g s (CallbackEvent.success i v)))
    (events : List (CallbackEvent V)) (s : σ)
    (hall : ∀ ev ∈ events, ev.isSuccess = true) :
    runPlugin step s events = .ok (events.foldl g s) := by
  induction events generalizing s with
  | nil => rfl
  | cons ev rest ih =>
    cases ev with
    | success i v =>
      rw [List.foldl_cons]
      show (match step s (CallbackEvent.success i v) with
        | .ok s2 => runPlugin step s2 rest
        | .error e => .error e) = _
      rw [hstep]
      exact ih _ (fun e he => hall e (List.mem_cons_of_mem _ he))
    | failure i e =>
      have := hall _ (List.mem_cons_self _ _)
      simp [CallbackEvent.isSuccess] at this

/-- Helper: when every invocation before the first error invocation succeeds
and the error callback throws an exception depending only on that invocation,
the run aborts with exactly that exception, whatever invocations follow. -/
theorem runPlugin_error_of_firstFailure {σ V ε : Type}
    (step : σ → CallbackEvent V → Except ε σ)
    (excOf : Nat → BatchElementError → ε)
    (hOk : ∀ s i v, ∃ s2, step s (CallbackEvent.success i v) = .ok s2)
    (hErr : ∀ s i e, step s (CallbackEvent.failure i e) = .error (excOf i e))
    (pre : List (CallbackEvent V)) (s : σ) (i : Nat) (e : BatchElementError)
    (rest : List (CallbackEvent V))
    (hpre : ∀ ev ∈ pre, ev.isSuccess = true) :
    runPlugin step s (pre ++ CallbackEvent.failure i e :: rest)
      = .error (excOf i e) := by
  induction pre generalizing s with
  | nil =>
    show (match step s (CallbackEvent.failure i e) with
      | .ok s2 => runPlugin step s2 rest
      | .error e2 => .error e2) = _
    rw [hErr]
  | cons ev pre2 ih =>
    cases ev with
    | success j v =>
      obtain ⟨s2, hs2⟩ := hOk s j v
      show (match step s (CallbackEvent.success j v) with
        | .ok s3 => runPlugin step s3 (pre2 ++ CallbackEvent.failure i e :: rest)
        | .error e2 => .error e2) = _
      rw [hs2]
      exact ih _ (fun x hx => hpre x (List.mem_cons_of_mem _ hx))
    | failure j e2 =>
      have := hpre _ (List.mem_cons_self _ _)
      simp [CallbackEvent.isSuccess] at this

/-- Helper: the pointwise content of a left fold of element writes at a
duplicate-free list of indices. -/
theorem getElem?_foldl_set {α : Type} (g : Nat → α) (idxs : List Nat) :
    ∀ (acc : List α) (j : Nat), idxs.Nodup →
      (idxs.foldl (fun a i => a.set i (g i)) acc)[j]?
        = if j ∈ idxs ∧ j < acc.length then some (g j) else acc[j]? := by
  induction idxs with
  | nil => intro acc j _; simp
  | cons i rest ih =>
    intro acc j hnd
    obtain ⟨hni, hnd2⟩ := List.nodup_cons.mp hnd
    rw [List.foldl_cons, ih (acc.set i (g i)) j hnd2, List.length_set]
    by_cases hj : j ∈ rest
    · have hjcons : j ∈ i :: rest := List.mem_cons_of_mem _ hj
      have hne : i ≠ j := fun h => hni (h ▸ hj)
      simp [hj, hjcons, List.getElem?_set_ne hne]
    · by_cases hij : j = i
      · subst hij
        have hjcons : j ∈ j :: rest := List.mem_cons_self _ _
        by_cases hlen : j < acc.length
        · simp [hj, hjcons, hlen, List.getElem?_set_eq_of_lt _ hlen]
        · have hle : acc.length ≤ j := Nat.le_of_not_lt hlen
          have h1 : (acc.set j (g j))[j]? = none :=
            List.getElem?_eq_none (by rw [List.length_set]; exact hle)
          have h2 : acc[j]? = none := List.getElem?_eq_none hle
          simp [hj, hjcons, hlen, h1, h2]
      · have hjcons : j ∉ i :: rest := by
          intro hmem
          rcases List.mem_cons.mp hmem with h | h
          · exact hij h
          · exact hj h
        have hne : i ≠ j := fun h => hij h.symm
        simp [hj, hjcons, List.getElem?_set_ne hne]

/-- Helper: folding element writes over the index range into a pre-sized
buffer yields exactly the per-index map. -/
theorem foldl_set_range_replicate {α : Type} (g : Nat → α) (n : Nat) (d : α) :
    (List.range n).foldl (fun acc i => acc.set i (g i)) (List.replicate n d)
      = (List.range n).map g := by
  apply List.ext_getElem?
  intro j
  rw [getElem?_foldl_set g (List.range n) (List.replicate n d) j (List.nodup_range n)]
  by_cases hj : j < n
  · simp [hj, List.mem_range, List.getElem?_map, List.getElem?_range hj]
  · have h1 : (List.replicate n d)[j]? = none :=
      List.getElem?_eq_none (by simpa using Nat.le_of_not_lt hj)
    have h2 : (List.map g (List.range n))[j]? = none :=
      List.getElem?_eq_none (by simpa using Nat.le_of_not_lt hj)
    simp [hj, List.mem_range, h1, h2]

/-- Helper: a callback fold whose step writes slot `slot i` at index `i` for
the canonical invocation `mkEv i` of each index, run over any permutation of
one invocation per index, fills the pre-sized buffer with exactly the
per-index slots — whatever the invocation order. -/
theorem foldl_write_all_of_perm {V α : Type}
    (g : List α → CallbackEvent V → List α) (n : Nat) (d : α)
    (mkEv : Nat → CallbackEvent V) (slot : Nat → α)
    (hg : ∀ acc i, g acc (mkEv i) = acc.set i (slot i))
    (events : List (CallbackEvent V))
    (hperm : events.Perm ((List.range n).map mkEv)) :
    events.foldl g (List.replicate n d) = (List.range n).map slot := by
  have hcomm : ∀ x ∈ events, ∀ y ∈ events, ∀ z : List α,
      g (g z x) y = g (g z y) x := by
    intro x hx y hy z
    obtain ⟨i, _, rfl⟩ := List.mem_map.mp (hperm.subset hx)
    obtain ⟨j, _, rfl⟩ := List.mem_map.mp (hperm.subset hy)
    rw [hg, hg, hg, hg]
    by_cases hij : i = j
    · subst hij; rfl
    · exact List.set_comm _ _ _ hij
  rw [List.Perm.foldl_eq' hperm hcomm (List.replicate n d), List.foldl_map]
  have hfun : (fun (acc : List α) (i : Nat) => g acc (mkEv i))
      = fun acc i => acc.set i (slot i) := by
    funext acc i
    rw [hg]
  rw [hfun]
  exact foldl_set_range_replicate slot n d

/-- C7: the error-to-exception mapping is total: for every `ErrorCode`
enumerator, `throwFromBatchElementError` throws exactly the concrete exception
type paired with that code, carrying the index, the originating error and the
contextual data collected by the calling wrapper (the entity reference for
every entity-bearing code, the traits data for the two traits-data codes, and
the trait set for `kInvalidTraitSet`); the match over the closed enumeration
is exhaustive, so the defensive fallback of the C++ switch is unreachable for
enumeration values. -/
theorem throwFromBatchElementError_total_mapping (index : Nat)
    (error : BatchElementError) (data : BatchElementExceptionData) :
    (throwFromBatchElementError index error data).index = index
    ∧ (throwFromBatchElementError index error data).error = error
    ∧ (throwFromBatchElementError index error data).kind =
        (match error.code with
          | .kUnknown => .unknown
          | .kInvalidEntityReference => .invalidEntityReference
          | .kMalformedEntityReference => .malformedEntityReference
          | .kEntityAccessError => .entityAccessError
          | .kEntityResolutionError => .entityResolutionError
          | .kInvalidTraitsData => .invalidTraitsData
          | .kInvalidPreflightHint => .invalidPreflightHint
          | .kInvalidTraitSet => .invalidTraitSet)
    ∧ (throwFromBatchElementError index error data).entityReference =
        (match error.code with
          | .kUnknown => none
          | _ => data.entityRef)
    ∧ (throwFromBatchElementError index error data).traitsData =
        (match error.code with
          | .kInvalidTraitsData => data.traitsData
          | .kInvalidPreflightHint => data.traitsData
          | _ => none)
    ∧ (throwFromBatchElementError index error data).traitSet =
        (match error.code with
          | .kInvalidTraitSet => data.traitSet
          | _ => none) := by
  obtain ⟨code, msg⟩ := error
  cases code <;> simp [throwFromBatchElementError]

/-- Helper: fusing the colon and space segments of the formatter output. -/
theorem colon_space_append (r : String) : (":" : String) ++ (" " ++ r) = ": " ++ r := by
  rw [← String.append_assoc, show (":" : String) ++ " " = ": " from by decide]

/-- Counterexample for C5: at an empty error message the claimed template
`"<errorCodeName>: <message> [index=<n>]"` instantiates to
`"unknown:  [index=0]"` (double space), but the code omits the message
segment together with its separating space and emits `"unknown: [index=0]"`
(single space), so the claim is false at this input. -/
theorem createBatchElementExceptionMessage_empty_message_counterexample :
    createBatchElementExceptionMessage
        { code := .kUnknown, message := "" } 0 none none
      = "unknown: [index=0]"
    ∧ createBatchElementExceptionMessage
        { code := .kUnknown, message := "" } 0 none none
      ≠ errorCodeName ErrorCode.kUnknown ++ ": " ++ ""
          ++ " [index=" ++ toString (0 : Nat) ++ "]" := by
  decide

/-- C5 (amended): for every `BatchElementError`, index, optional access and
optional entity reference, `createBatchElementExceptionMessage` produces
exactly `"<errorCodeName>: <message> [index=<n>] [access=<name>]
[entity=<ref>]"` when the message is non-empty; when the message is empty the
message segment and its separating space are omitted entirely, yielding
`"<errorCodeName>: [index=<n>] [access=<name>] [entity=<ref>]"`. The access
and entity segments are omitted entirely when absent, and `errorCodeName` is
the fixed string table over the closed `ErrorCode` enumeration (in this
snapshot the `kInvalidTraitsData` enumerator is absent from the switch and
yields the fixed fall-through string). The formatter is a pure function, so
equal arguments trivially produce identical strings. -/
theorem createBatchElementExceptionMessage_format_amended
    (err : BatchElementError) (index : Nat)
    (entityReference : Option EntityReference) (access : Option Access) :
    createBatchElementExceptionMessage err index entityReference access =
      (if err.message = ""
       then errorCodeName err.code ++ ": "
         ++ "[index=" ++ toString index ++ "]"
       else errorCodeName err.code ++ ": " ++ err.message
         ++ " [index=" ++ toString index ++ "]")
        ++ (match access with
            | some acc => " [access=" ++ accessName acc ++ "]"
            | none => "")
        ++ (match entityReference with
            | some ref => " [entity=" ++ ref.toString ++ "]"
            | none => "")
    ∧ errorCodeName .kUnknown = "unknown"
    ∧ errorCodeName .kInvalidEntityReference = "invalidEntityReference"
    ∧ errorCodeName .kMalformedEntityReference = "malformedEntityReference"
    ∧ errorCodeName .kEntityAccessError = "entityAccessError"
    ∧ errorCodeName .kEntityResolutionError = "entityResolutionError"
    ∧ errorCodeName .kInvalidPreflightHint = "invalidPreflightHint"
    ∧ errorCodeName .kInvalidTraitSet = "invalidTraitSet"
    ∧ errorCodeName .kInvalidTraitsData = "Unknown ErrorCode" := by
  refine ⟨?_, rfl, rfl, rfl, rfl, rfl, rfl, rfl, rfl⟩
  by_cases hm : err.message = ""
  · have hempty : err.message.isEmpty = true := (String.isEmpty_iff _).mpr hm
    rw [if_pos hm]
    simp only [createBatchElementExceptionMessage, hempty, if_true,
      String.append_empty]
    rw [show (" [index=" : String) = " " ++ "[index=" from by decide]
    simp only [String.append_assoc, colon_space_append]
  · have hempty : err.message.isEmpty = false := by
      cases h : err.message.isEmpty
      · rfl
      · exact absurd ((String.isEmpty_iff _).mp h) hm
    rw [if_neg hm]
    simp only [createBatchElementExceptionMessage, hempty, Bool.false_eq_true,
      if_false, String.append_assoc, colon_space_append]

/-- C6: for a single-element batch where the plugin invokes the error callback
at index 0 with code `kMalformedEntityReference`, message `"Error Message"`
and entity reference `"testReference"`, the exception-policy resolve call
throws `MalformedEntityReferenceBatchElementException` whose displayed
message is exactly `"Error Message [testReference]"` and whose index is 0
(matching the singular resolve error scenario of the test suite). -/
theorem resolveSingularException_malformed_testReference :
    Manager.resolveSingularException { str := "testReference" }
        ["fakeTrait", "secondFakeTrait"]
        [CallbackEvent.failure 0
          { code := .kMalformedEntityReference, message := "Error Message" }]
      = Except.error
          { kind := .malformedEntityReference,
            index := 0,
            error := { code := .kMalformedEntityReference,
                       message := "Error Message" },
            message := "Error Message [testReference]",
            entityReference := some { str := "testReference" },
            traitsData := none,
            traitSet := none } := by
  simp only [Manager.resolveSingularException, runPlugin, throwFromBatchElementError,
    constructErrorMessage, EntityReference.toString]
  rw [show ("Error Message" : String) ++ " [" ++ "testReference" ++ "]"
      = "Error Message [testReference]" from by decide]

/-- C8: the entity-reference validation gate. `createEntityReference`
returns a reference whose string form equals the input exactly if and only if
`isEntityReferenceString` holds, and fails with `InputValidationException`
exactly when it does not; `createEntityReferenceIfValid` returns the same
reference under the same condition and an absent optional otherwise. -/
theorem createEntityReference_validation_gate (mgrIsRef : String → Bool)
    (advertised : Option String) (s : String) :
    (Manager.createEntityReference mgrIsRef advertised s
        = Except.ok { str := s }
      ↔ Manager.isEntityReferenceString mgrIsRef advertised s = true)
    ∧ (Manager.isEntityReferenceString mgrIsRef advertised s = false
      ↔ Manager.createEntityReference mgrIsRef advertised s
          = Except.error
              { message := kCreateEntityReferenceErrorMessage ++ s })
    ∧ Manager.createEntityReferenceIfValid mgrIsRef advertised s
        = (if Manager.isEntityReferenceString mgrIsRef advertised s
           then some { str := s } else none)
    ∧ EntityReference.toString { str := s } = s := by
  unfold Manager.createEntityReference Manager.createEntityReferenceIfValid
  cases h : Manager.isEntityReferenceString mgrIsRef advertised s <;>
    simp [h, EntityReference.toString]

/-- Witness for C8 with the manager-queried validity predicate: the string
"bal:///cat" is accepted and round-trips; "file:///dog" is rejected by both
entry points. -/
theorem createEntityReference_validation_gate_witness :
    (Manager.createEntityReference (fun s => decide (s = "bal:///cat")) none
          "bal:///cat"
        = Except.ok { str := "bal:///cat" })
    ∧ (Manager.createEntityReference (fun s => decide (s = "bal:///cat")) none
          "file:///dog"
        = Except.error
            { message := kCreateEntityReferenceErrorMessage ++ "file:///dog" })
    ∧ Manager.createEntityReferenceIfValid
          (fun s => decide (s = "bal:///cat")) none "file:///dog"
        = none :=
  ⟨(createEntityReference_validation_gate (fun s => decide (s = "bal:///cat"))
      none "bal:///cat").1.mpr (by decide),
   (createEntityReference_validation_gate (fun s => decide (s = "bal:///cat"))
      none "file:///dog").2.1.mp (by decide),
   ((createEntityReference_validation_gate (fun s => decide (s = "bal:///cat"))
      none "file:///dog").2.2.1).trans (by decide)⟩

/-- C4: input-shape validation precedes dispatch for the plural callback-form
`preflight` and `register_`: unequal entity-reference and traits lists raise
`InputValidationException` (with the source's message) and nothing is
forwarded to the manager interface; equal lengths forward the call
unchanged. -/
theorem preflight_register_length_validation
    (entityReferences : List EntityReference) (traitsDatas : List TraitsData)
    (publishingAccess : Access) :
    (entityReferences.length ≠ traitsDatas.length →
      Manager.preflight entityReferences traitsDatas publishingAccess
        = Except.error { message :=
            "Parameter lists must be of the same length: "
              ++ toString entityReferences.length
              ++ " entity references vs. "
              ++ toString traitsDatas.length
              ++ " traits hints." }
      ∧ Manager.register_ entityReferences traitsDatas publishingAccess
        = Except.error { message :=
            "Parameter lists must be of the same length: "
              ++ toString entityReferences.length
              ++ " entity references vs. "
              ++ toString traitsDatas.length
              ++ " traits datas." })
    ∧ (entityReferences.length = traitsDatas.length →
      Manager.preflight entityReferences traitsDatas publishingAccess
        = Except.ok { entityReferences, traitsHints := traitsDatas,
                      publishingAccess }
      ∧ Manager.register_ entityReferences traitsDatas publishingAccess
        = Except.ok { entityReferences, entityTraitsDatas := traitsDatas,
                      publishingAccess }) := by
  constructor
  · intro h
    exact ⟨by simp [Manager.preflight, h], by simp [Manager.register_, h]⟩
  · intro h
    exact ⟨by simp [Manager.preflight, h], by simp [Manager.register_, h]⟩

/-- Witness for C4: one entity reference against zero traits datas errors
without dispatch; matched lengths dispatch unchanged. -/
theorem preflight_register_length_validation_witness :
    (Manager.preflight [{ str := "a" }] [] Access.kWrite
      = Except.error { message :=
          "Parameter lists must be of the same length: 1 entity references vs. 0 traits hints." })
    ∧ (Manager.register_ [{ str := "a" }] [{ properties := [] }] Access.kWrite
      = Except.ok { entityReferences := [{ str := "a" }],
                    entityTraitsDatas := [{ properties := [] }],
                    publishingAccess := Access.kWrite }) := by
  constructor
  · have h := ((preflight_register_length_validation [{ str := "a" }] []
      Access.kWrite).1 (by decide)).1
    rw [h, show ("Parameter lists must be of the same length: "
        ++ toString ([{ str := "a" }] : List EntityReference).length
        ++ " entity references vs. "
        ++ toString ([] : List TraitsData).length
        ++ " traits hints.")
      = "Parameter lists must be of the same length: 1 entity references vs. 0 traits hints."
      from by decide]
  · exact ((preflight_register_length_validation [{ str := "a" }]
      [{ properties := [] }] Access.kWrite).2 (by decide)).2

/-- C10: the paged relationship queries validate the page size before any
dispatch: a zero page size raises `InputValidationException` with message
`"pageSize must be greater than zero."` and the manager interface is never
invoked; any positive page size passes validation and the call is forwarded
to the plugin unchanged. -/
theorem getWithRelationshipPaged_pageSize_validation
    (entityReferences : List EntityReference)
    (relationshipTraitsData : TraitsData) (entityReference : EntityReference)
    (relationshipTraitsDatas : List TraitsData) (pageSize : Nat)
    (relationsAccess : Access) (resultTraitSet : TraitSet) :
    (pageSize = 0 →
      Manager.getWithRelationshipPaged entityReferences relationshipTraitsData
          pageSize relationsAccess resultTraitSet
        = Except.error { message := "pageSize must be greater than zero." }
      ∧ Manager.getWithRelationshipsPaged entityReference
          relationshipTraitsDatas pageSize relationsAccess resultTraitSet
        = Except.error { message := "pageSize must be greater than zero." })
    ∧ (0 < pageSize →
      Manager.getWithRelationshipPaged entityReferences relationshipTraitsData
          pageSize relationsAccess resultTraitSet
        = Except.ok { entityReferences, relationshipTraitsData, resultTraitSet,
                      pageSize, relationsAccess }
      ∧ Manager.getWithRelationshipsPaged entityReference
          relationshipTraitsDatas pageSize relationsAccess resultTraitSet
        = Except.ok { entityReference, relationshipTraitsDatas, resultTraitSet,
                      pageSize, relationsAccess }) := by
  constructor
  · intro h
    subst h
    exact ⟨rfl, rfl⟩
  · intro h
    have hne : pageSize ≠ 0 := Nat.pos_iff_ne_zero.mp h
    exact ⟨by simp [Manager.getWithRelationshipPaged, hne],
           by simp [Manager.getWithRelationshipsPaged, hne]⟩

/-- Witness for C10: page size zero errors, page size three forwards. -/
theorem getWithRelationshipPaged_pageSize_validation_witness :
    (Manager.getWithRelationshipPaged [] { properties := [] } 0 Access.kRead []
      = Except.error { message := "pageSize must be greater than zero." })
    ∧ (Manager.getWithRelationshipsPaged { str := "r" } [] 3 Access.kRead []
      = Except.ok { entityReference := { str := "r" },
                    relationshipTraitsDatas := [], resultTraitSet := [],
                    pageSize := 3, relationsAccess := Access.kRead }) :=
  ⟨((getWithRelationshipPaged_pageSize_validation [] { properties := [] }
      { str := "r" } [] 0 Access.kRead []).1 rfl).1,
   ((getWithRelationshipPaged_pageSize_validation [] { properties := [] }
      { str := "r" } [] 3 Access.kRead []).2 (by decide)).2⟩

/-- C9: the pager is a stateless forwarding wrapper. Running any sequence of
host-side `hasNext`/`get`/`next` calls through the `EntityReferencePager`
forwarders produces exactly the trace of running the same calls directly
against the backend interface — one backend invocation per call, in order,
returning exactly the backend-reported value each time, with no memoization
or buffering. In particular two consecutive `get` calls observe two separate
backend `get` invocations, the second against the backend state left by the
first. -/
theorem entityReferencePager_forwards_without_caching (σ : Type)
    (pagerInterface : EntityReferencePagerInterface σ) (s : σ)
    (ops : List PagerOp) :
    EntityReferencePager.run pagerInterface s ops
        = EntityReferencePagerInterface.run pagerInterface s ops
    ∧ (EntityReferencePager.run pagerInterface s
          [PagerOp.getOp, PagerOp.getOp]).1
        = [(PagerOp.getOp, PagerObs.pageObs (pagerInterface.getImpl s).1),
           (PagerOp.getOp, PagerObs.pageObs
             (pagerInterface.getImpl (pagerInterface.getImpl s).2).1)] := by
  constructor
  · induction ops generalizing s with
    | nil => rfl
    | cons op rest ih =>
      cases op <;>
        simp [EntityReferencePager.run, EntityReferencePagerInterface.run,
          EntityReferencePager.hasNext, EntityReferencePager.get,
          EntityReferencePager.next, ih]
  · cases hg1 : pagerInterface.getImpl s with
    | mk page1 s1 =>
      cases hg2 : pagerInterface.getImpl s1 with
      | mk page2 s2 =>
        simp [EntityReferencePager.run, EntityReferencePager.get, hg1, hg2]

/-- C1: fail-fast exception policy. For every plural exception-policy resolve
call and every sequence of callback invocations by the plugin, the first
error-callback invocation (first in invocation order) immediately raises the
exception built from its `BatchElementError` — in the convenience layer the
`BatchElementException` carrying the canonical `ErrorCode`-keyed message, in
the `Manager.cpp` layer the concrete exception mapped from the code via
`throwFromBatchElementError` — carrying `.index` equal to that invocation's
index; the wrapper call terminates there, so the result is the same whatever
invocations follow (`rest` does not occur in the conclusion). -/
theorem resolve_exception_policy_fail_fast
    (entityReferences : List EntityReference) (traitSet : TraitSet)
    (resolveAccess : Access) (pre rest : List (CallbackEvent TraitsData))
    (idx : Nat) (err : BatchElementError)
    (hidx : idx < entityReferences.length)
    (hpre : ∀ ev ∈ pre, ev.isSuccess = true) :
    Manager.resolveMultiExceptionConv entityReferences resolveAccess
        (pre ++ CallbackEvent.failure idx err :: rest)
      = Except.error
          { index := idx, error := err,
            message := createBatchElementExceptionMessage err idx
              (some entityReferences[idx]) (some resolveAccess) }
    ∧ Manager.resolveMultiException entityReferences traitSet
        (pre ++ CallbackEvent.failure idx err :: rest)
      = Except.error (throwFromBatchElementError idx err
          { entityRef := some entityReferences[idx],
            traitSet := some traitSet })
    ∧ (throwFromBatchElementError idx err
        { entityRef := some entityReferences[idx],
          traitSet := some traitSet }).index = idx := by
  have hget : entityReferences[idx]? = some entityReferences[idx] :=
    List.getElem?_eq_getElem hidx
  refine ⟨?_, ?_, ?_⟩
  · have h := runPlugin_error_of_firstFailure
      (resolveExceptStepConv entityReferences resolveAccess)
      (fun i e =>
        { index := i, error := e,
          message := createBatchElementExceptionMessage e i
            entityReferences[i]? (some resolveAccess) })
      (fun s i v => ⟨_, rfl⟩) (fun _s _i _e => rfl)
      pre (List.replicate entityReferences.length none) idx err rest hpre
    rw [Manager.resolveMultiExceptionConv, h]
    simp only [hget]
  · have h := runPlugin_error_of_firstFailure
      (resolveExceptStep entityReferences traitSet)
      (fun i e => throwFromBatchElementError i e
        { entityRef := entityReferences[i]?, traitSet := some traitSet })
      (fun s i v => ⟨_, rfl⟩) (fun _s _i _e => rfl)
      pre (List.replicate entityReferences.length none) idx err rest hpre
    rw [Manager.resolveMultiException, h]
    simp only [hget]
  · obtain ⟨code, msg⟩ := err
    cases code <;> rfl

/-- Witness for C1: a two-element batch in which the plugin reports success
for index 0, then an error for index 1, then (in violation of fail-fast)
another success invocation; both wrappers abort at the error invocation with
`.index = 1`, and the convenience-layer message evaluates to the canonical
format. -/
theorem resolve_exception_policy_fail_fast_witness :
    Manager.resolveMultiExceptionConv [{ str := "a" }, { str := "b" }]
        Access.kRead
        [CallbackEvent.success 0 { properties := [] },
         CallbackEvent.failure 1
           { code := .kEntityResolutionError, message := "gone" },
         CallbackEvent.success 0 { properties := [("t", [])] }]
      = Except.error
          { index := 1,
            error := { code := .kEntityResolutionError, message := "gone" },
            message :=
              "entityResolutionError: gone [index=1] [access=read] [entity=b]" } := by
  have h := (resolve_exception_policy_fail_fast
      [{ str := "a" }, { str := "b" }] [] Access.kRead
      [CallbackEvent.success 0 { properties := [] }]
      [CallbackEvent.success 0 { properties := [("t", [])] }] 1
      { code := .kEntityResolutionError, message := "gone" }
      (by decide) (by decide)).1
  exact h.trans (by
    rw [show createBatchElementExceptionMessage
        { code := .kEntityResolutionError, message := "gone" } 1
        (some ([{ str := "a" }, { str := "b" }] :
          List EntityReference)[1]) (some Access.kRead)
      = "entityResolutionError: gone [index=1] [access=read] [entity=b]"
      from by decide])

/-- C2: order-restoring invariant. For every input list and every permutation
in which the plugin delivers the success callbacks (one per index, no error
invocation), the plural exception-policy resolve — in both the `Manager.cpp`
and the convenience-layer flavour — returns the length-N sequence whose
element at each index `i` is the success value delivered for index `i`, and
these are exactly the success values of the plural variant-policy wrapper, in
index order. -/
theorem resolve_exception_equals_variant_on_success
    (entityReferences : List EntityReference) (traitSet : TraitSet)
    (resolveAccess : Access) (f : Nat → TraitsData)
    (events : List (CallbackEvent TraitsData))
    (hperm : events.Perm ((List.range entityReferences.length).map
      (fun i => CallbackEvent.success i (f i)))) :
    Manager.resolveMultiException entityReferences traitSet events
      = Except.ok
          ((List.range entityReferences.length).map (fun i => some (f i)))
    ∧ Manager.resolveMultiExceptionConv entityReferences resolveAccess events
      = Except.ok
          ((List.range entityReferences.length).map (fun i => some (f i)))
    ∧ Manager.resolveMultiVariant entityReferences events
      = (List.range entityReferences.length).map
          (fun i => Sum.inr (some (f i))) := by
  have hall : ∀ ev ∈ events, ev.isSuccess = true := by
    intro ev hev
    obtain ⟨i, _, rfl⟩ := List.mem_map.mp (hperm.subset hev)
    rfl
  have hfold := foldl_write_all_of_perm
    (fun acc ev =>
      match ev with
      | CallbackEvent.success i v => acc.set i (some v)
      | CallbackEvent.failure _ _ => acc)
    entityReferences.length (none : Option TraitsData)
    (fun i => CallbackEvent.success i (f i)) (fun i => some (f i))
    (fun _acc _i => rfl) events hperm
  refine ⟨?_, ?_, ?_⟩
  · have h := runPlugin_ok_of_allSuccess
      (resolveExceptStep entityReferences traitSet)
      (fun acc ev =>
        match ev with
        | CallbackEvent.success i v => acc.set i (some v)
        | CallbackEvent.failure _ _ => acc)
      (fun _s _i _v => rfl) events
      (List.replicate entityReferences.length none) hall
    rw [Manager.resolveMultiException, h, hfold]
  · have h := runPlugin_ok_of_allSuccess
      (resolveExceptStepConv entityReferences resolveAccess)
      (fun acc ev =>
        match ev with
        | CallbackEvent.success i v => acc.set i (some v)
        | CallbackEvent.failure _ _ => acc)
      (fun _s _i _v => rfl) events
      (List.replicate entityReferences.length none) hall
    rw [Manager.resolveMultiExceptionConv, h, hfold]
  · rw [Manager.resolveMultiVariant]
    exact foldl_write_all_of_perm resolveVariantStep
      entityReferences.length defaultVariantSlot
      (fun i => CallbackEvent.success i (f i))
      (fun i => Sum.inr (some (f i)))
      (fun _acc _i => rfl) events hperm

/-- Witness for C2: a three-element batch whose success callbacks arrive in
the order 2, 0, 1 (the invocation order of the out-of-order test scenario);
all three wrappers restore index order. -/
theorem resolve_exception_equals_variant_on_success_witness :
    Manager.resolveMultiException
        [{ str := "testReference1" }, { str := "testReference2" },
         { str := "testReference3" }]
        ["fakeTrait", "secondFakeTrait"]
        [CallbackEvent.success 2 { properties := [("t2", [])] },
         CallbackEvent.success 0 { properties := [("t0", [])] },
         CallbackEvent.success 1 { properties := [("t1", [])] }]
      = Except.ok
          [some { properties := [("t0", [])] },
           some { properties := [("t1", [])] },
           some { properties := [("t2", [])] }]
    ∧ Manager.resolveMultiVariant
        [{ str := "testReference1" }, { str := "testReference2" },
         { str := "testReference3" }]
        [CallbackEvent.success 2 { properties := [("t2", [])] },
         CallbackEvent.success 0 { properties := [("t0", [])] },
         CallbackEvent.success 1 { properties := [("t1", [])] }]
      = [Sum.inr (some { properties := [("t0", [])] }),
         Sum.inr (some { properties := [("t1", [])] }),
         Sum.inr (some { properties := [("t2", [])] })] := by
  have h := resolve_exception_equals_variant_on_success
    [{ str := "testReference1" }, { str := "testReference2" },
     { str := "testReference3" }]
    ["fakeTrait", "secondFakeTrait"] Access.kRead
    (fun i => { properties := [("t" ++ toString i, [])] })
    [CallbackEvent.success 2 { properties := [("t2", [])] },
     CallbackEvent.success 0 { properties := [("t0", [])] },
     CallbackEvent.success 1 { properties := [("t1", [])] }]
    (by decide)
  exact ⟨h.1.trans (congrArg Except.ok (by decide)), h.2.2.trans (by decide)⟩

/-- C3: variant-policy totality. For every plural variant-policy resolve call
and every mix of success/error callback invocations by the plugin — one per
index, in any order — the wrapper is a total function (no exception path
exists in its type) returning a length-N sequence in which the slot at index
`i` holds the success value when that index's invocation was a success, and
the delivered `BatchElementError` when it was an error. -/
theorem resolve_variant_policy_totality
    (entityReferences : List EntityReference)
    (assign : Nat → Sum BatchElementError TraitsData)
    (events : List (CallbackEvent TraitsData))
    (hperm : events.Perm ((List.range entityReferences.length).map
      (fun i =>
        match assign i with
        | Sum.inl e => CallbackEvent.failure i e
        | Sum.inr v => CallbackEvent.success i v))) :
    Manager.resolveMultiVariant entityReferences events
      = (List.range entityReferences.length).map
          (fun i =>
            match assign i with
            | Sum.inl e => Sum.inl e
            | Sum.inr v => Sum.inr (some v)) := by
  rw [Manager.resolveMultiVariant]
  refine foldl_write_all_of_perm resolveVariantStep
    entityReferences.length defaultVariantSlot _ _ ?_ events hperm
  intro acc i
  cases assign i <;> rfl

/-- Witness for C3: a two-element batch, error for index 0 delivered after
the success for index 1; the variant wrapper slots both by index. -/
theorem resolve_variant_policy_totality_witness :
    Manager.resolveMultiVariant [{ str := "x" }, { str := "y" }]
        [CallbackEvent.success 1 { properties := [] },
         CallbackEvent.failure 0
           { code := .kEntityAccessError, message := "denied" }]
      = [Sum.inl { code := .kEntityAccessError, message := "denied" },
         Sum.inr (some { properties := [] })] := by
  have h := resolve_variant_policy_totality [{ str := "x" }, { str := "y" }]
    (fun i =>
      if i = 0
      then Sum.inl { code := .kEntityAccessError, message := "denied" }
      else Sum.inr { properties := [] })
    [CallbackEvent.success 1 { properties := [] },
     CallbackEvent.failure 0
       { code := .kEntityAccessError, message := "denied" }]
    (by decide)
  exact h.trans (by decide)
